import Mathlib

/-!
Shallow embedding of the shortyio desktop application (src/main.rs):
the request-bridge between the UI state and the short.io HTTP endpoint.

The embedding models:
  * the JSON data model used by serde (a small `Json` value type),
  * `CreateLinkRequest` with its serde attributes (renames and
    skip_serializing_if on the optional fields),
  * `LinkResponse` and its deserialization,
  * `Config` with its hand-written Serialize/Deserialize impls,
  * `ShortyApp` state, `ShortyApp::default` (with the clipboard and the
    loaded config passed in as explicit inputs), `create_short_link`
    (validation, request construction, spawning), the background
    response handler (the four outcome branches written into the egui
    temp-data slot), and the drain performed at the top of `update`.

Effects that the Rust performs through the OS (file IO, the real HTTP
call, the clipboard read) appear as explicit inputs; the pure logic on
either side of them is translated directly from the source.
-/

set_option autoImplicit false

namespace Shortyio

/-- A JSON value, the data model serde serializes into. -/
inductive Json where
  | str (s : String)
  | int (n : Int)
  | bool (b : Bool)
  | arr (xs : List Json)
  | obj (fields : List (String × Json))

/-- First binding of a key in a serialized JSON object. -/
def lookupField : List (String × Json) → String → Option Json
  | [], _ => none
  | (k, v) :: rest, key => if k = key then some v else lookupField rest key

/-- Key lookup on a JSON value: a binding only when it is an object. -/
def lookupJson : Json → String → Option Json
  | .obj fields, k => lookupField fields k
  | _, _ => none

/-- A serde optional field: skipped when `none` (skip_serializing_if). -/
def optField {α : Type} (k : String) (f : α → Json) : Option α → List (String × Json)
  | none => []
  | some v => [(k, f v)]

/-- `CreateLinkRequest` from src/main.rs lines 11-36. -/
structure CreateLinkRequest where
  original_url : String
  path : Option String
  domain : Option String
  cloaking : Option Bool
  password : Option String
  password_contact : Option Bool
  allow_duplicates : Bool
  clicks_limit : Option Int
  redirect_type : Option Int
  tags : Option (List String)

/-- Serde serialization of `CreateLinkRequest`: fields in declaration
order, renamed as by the serde attributes, optional fields skipped when
`None`. -/
def CreateLinkRequest.toJson (r : CreateLinkRequest) : Json :=
  .obj ([("originalURL", Json.str r.original_url)]
    ++ optField "path" Json.str r.path
    ++ optField "domain" Json.str r.domain
    ++ optField "cloaking" Json.bool r.cloaking
    ++ optField "password" Json.str r.password
    ++ optField "passwordContact" Json.bool r.password_contact
    ++ [("allowDuplicates", Json.bool r.allow_duplicates)]
    ++ optField "clicksLimit" Json.int r.clicks_limit
    ++ optField "redirectType" Json.int r.redirect_type
    ++ optField "tags" (fun ts => Json.arr (ts.map Json.str)) r.tags)

/-- `LinkResponse` from src/main.rs lines 38-44. -/
structure LinkResponse where
  short_url : String
  original_url : String

/-- Serde deserialization of `LinkResponse`: the derive reads the
renamed fields `shortURL` and `originalURL` from a JSON object. -/
def LinkResponse.fromJson : Json → Except String LinkResponse
  | .obj fields =>
    match lookupField fields "shortURL", lookupField fields "originalURL" with
    | some (.str s), some (.str o) => .ok { short_url := s, original_url := o }
    | _, _ => .error "missing or ill-typed field"
  | _ => .error "expected an object"

/-- `Config` from src/main.rs lines 46-49. -/
structure Config where
  api_key : String
  domain : String

/-- The hand-written `Serialize for Config` (lines 73-84): a two-field
struct serialized as `api_key` then `domain`. -/
def Config.toJson (c : Config) : Json :=
  .obj [("api_key", Json.str c.api_key), ("domain", Json.str c.domain)]

/-- The hand-written `Deserialize for Config` (lines 86-102): reads the
helper struct with the fields `api_key` and `domain`. -/
def Config.fromJson : Json → Option Config
  | .obj fields =>
    match lookupField fields "api_key", lookupField fields "domain" with
    | some (.str a), some (.str d) => some { api_key := a, domain := d }
    | _, _ => none
  | _ => none

/-- Rust `str::parse::<i32>`: optional sign, one or more ASCII digits,
value within the i32 range; anything else fails. -/
def digitsVal : List Char → Option Nat
  | [] => none
  | cs => cs.foldl (fun acc c => acc.bind
      (fun n => if c.isDigit then some (n * 10 + (c.toNat - 48)) else none))
      (some 0)

/-- `str::parse::<i32>` on the whole string (used for the clicks limit). -/
def parseI32 (s : String) : Option Int :=
  let (neg, digits) :=
    match s.data with
    | '+' :: r => (false, r)
    | '-' :: r => (true, r)
    | r => (false, r)
  match digitsVal digits with
  | none => none
  | some n =>
    if neg then
      if n ≤ 2147483648 then some (-(n : Int)) else none
    else
      if n ≤ 2147483647 then some (n : Int) else none

/-- `ShortyApp` state from src/main.rs lines 104-118. -/
structure ShortyApp where
  api_key : String
  domain : String
  original_url : String
  custom_path : String
  cloaking : Bool
  password : String
  password_contact : Bool
  clicks_limit : String
  redirect_type : Int
  result : Option LinkResponse
  error : Option String
  loading : Bool
  show_settings : Bool

/-- Rust `str::starts_with`: the pattern's characters are an initial
segment of the string's characters. -/
def starts_with (s pat : String) : Bool :=
  pat.data.isPrefixOf s.data

/-- The clipboard pre-fill of `ShortyApp::default` (lines 124-130): the
clipboard text when it starts with http:// or https://, else empty. -/
def clipboardPrefill (clip : Option String) : String :=
  ((clip.filter (fun text =>
      starts_with text "http://" || starts_with text "https://")).getD "")

/-- `ShortyApp::default` (lines 120-148), with the loaded config and the
clipboard text (both obtained through the OS) as explicit inputs. -/
def ShortyApp.defaultWith (config : Option Config) (clip : Option String) :
    ShortyApp where
  api_key := (config.map Config.api_key).getD ""
  domain := (config.map Config.domain).getD ""
  original_url := clipboardPrefill clip
  custom_path := ""
  cloaking := false
  password := ""
  password_contact := false
  clicks_limit := ""
  redirect_type := 301
  result := none
  error := none
  loading := false
  show_settings := false

/-- The request built by `create_short_link` on valid input
(src/main.rs lines 162-194). -/
def ShortyApp.buildRequest (app : ShortyApp) : CreateLinkRequest where
  original_url := app.original_url
  path := if app.custom_path.isEmpty then none else some app.custom_path
  domain := if app.domain.isEmpty then none else some app.domain
  cloaking := if app.cloaking then some true else none
  password := if app.password.isEmpty then none else some app.password
  password_contact := if app.password_contact then some true else none
  allow_duplicates := false
  clicks_limit := if app.clicks_limit.isEmpty then none
    else parseI32 app.clicks_limit
  redirect_type := some app.redirect_type
  tags := some ["shortyio"]

/-- What one call to `create_short_link` does: either it returns early
with a validation message (no thread spawned), or it updates the state
and spawns the background request with the captured api key and body. -/
inductive CreateOutcome where
  | validationError (app : ShortyApp)
  | spawned (app : ShortyApp) (api_key : String) (request : CreateLinkRequest)

/-- `ShortyApp::create_short_link` up to the thread spawn
(src/main.rs lines 151-200). -/
def ShortyApp.create_short_link (app : ShortyApp) : CreateOutcome :=
  if app.api_key.isEmpty then
    .validationError { app with
      error := some "API key is required. Click settings (⚙) to configure." }
  else if app.original_url.isEmpty then
    .validationError { app with error := some "Original URL is required" }
  else
    .spawned { app with loading := true, error := none, result := none }
      app.api_key app.buildRequest

/-- Whether the call spawned a background request. -/
def CreateOutcome.isSpawned : CreateOutcome → Bool
  | .spawned .. => true
  | _ => false

/-- An HTTP status line as reqwest's `StatusCode` displays it:
the numeric code and the canonical reason phrase. -/
structure StatusCode where
  code : Nat
  reason : String

/-- `StatusCode::is_success`: a code in 200..=299. -/
def statusIsSuccess (st : StatusCode) : Bool :=
  200 ≤ st.code && st.code < 300

/-- `Display for StatusCode`: the numeric code, a space, the reason. -/
def statusDisplay (st : StatusCode) : String :=
  toString st.code ++ " " ++ st.reason

/-- What `client.post(...).send().await` can come back with: a response
(status plus body text) or a transport failure with its message. -/
inductive HttpResult where
  | ok (status : StatusCode) (body : String)
  | err (msg : String)

/-- The egui temp-data mailbox the background thread writes and `update`
drains: the three keys `result`, `error`, `loading`. -/
structure OutcomeSlot where
  result : Option LinkResponse
  error : Option String
  loading : Bool

/-- The response handling of the background closure
(src/main.rs lines 213-255), as the slot it writes. `decode` stands for
`resp.json::<LinkResponse>()`, serde_json applied to the body text. -/
def handle_response (decode : String → Except String LinkResponse) :
    HttpResult → OutcomeSlot
  | .ok st body =>
    if statusIsSuccess st then
      match decode body with
      | .ok link => { result := some link, error := none, loading := false }
      | .error e =>
        { result := none
          error := some ("Failed to parse response: " ++ e)
          loading := false }
    else
      { result := none
        error := some ("API error " ++ statusDisplay st ++ ": " ++ body)
        loading := false }
  | .err e =>
    { result := none
      error := some ("Request failed: " ++ e)
      loading := false }

/-- The drain at the top of `ShortyApp::update` (src/main.rs lines
263-276) once the background thread has written all three keys. -/
def ShortyApp.drain (app : ShortyApp) (slot : OutcomeSlot) : ShortyApp :=
  { app with
    result := slot.result
    error := slot.error
    loading := slot.loading }

/-- The spec taxonomy of §7: the four outcomes a completed background
request is classified into. -/
inductive Outcome where
  | success (link : LinkResponse)
  | transportError (msg : String)
  | apiError (status : StatusCode) (body : String)
  | decodeError (msg : String)

/-- Classification of an HTTP result by the spec conditions of §4.1. -/
def classify (decode : String → Except String LinkResponse) :
    HttpResult → Outcome
  | .err e => .transportError e
  | .ok st body =>
    if statusIsSuccess st then
      match decode body with
      | .ok link => .success link
      | .error e => .decodeError e
    else .apiError st body

/-- The slot each classified outcome is recorded as. -/
def outcomeSlot : Outcome → OutcomeSlot
  | .success link => { result := some link, error := none, loading := false }
  | .transportError e =>
    { result := none
      error := some ("Request failed: " ++ e)
      loading := false }
  | .apiError st body =>
    { result := none
      error := some ("API error " ++ statusDisplay st ++ ": " ++ body)
      loading := false }
  | .decodeError e =>
    { result := none
      error := some ("Failed to parse response: " ++ e)
      loading := false }

/-- The three UI paths of `ShortyApp::update` that call
`create_short_link`: Enter on the URL field (lines 350-352), Enter on
the custom-path field (lines 361-363), and the create button
(lines 406-414). -/
inductive UiTrigger where
  | urlEnter
  | pathEnter
  | createButton

/-- Whether a trigger can fire in a given state: the create button sits
behind `add_enabled(!self.loading, ...)`, the two Enter paths have no
guard. -/
def trigger_enabled (app : ShortyApp) : UiTrigger → Bool
  | .urlEnter => true
  | .pathEnter => true
  | .createButton => !app.loading

/-- One user-driven submission attempt through a UI path: `none` when
the trigger cannot fire, otherwise the `create_short_link` call. -/
def ui_submit (app : ShortyApp) (t : UiTrigger) : Option CreateOutcome :=
  if trigger_enabled app t then some app.create_short_link else none

/-- Whether a submission attempt through a UI path starts a background
request. -/
def starts_request (app : ShortyApp) (t : UiTrigger) : Bool :=
  match ui_submit app t with
  | some o => o.isSpawned
  | none => false

/-- The redirect-type values offered by the radio buttons
(src/main.rs lines 395-400). -/
def redirectChoices : List Int := [301, 302, 307, 308]

/-- Clicking one of the four redirect-type radio buttons. -/
def applyRadio (app : ShortyApp) (v : Int) : ShortyApp :=
  { app with redirect_type := v }

/-- A substring occurrence, used to state what an error message carries. -/
def containsStr (m sub : String) : Prop :=
  ∃ pre post : String, m = pre ++ sub ++ post

/-! ### Lookup lemmas for serialized objects -/

theorem lookupField_nil (key : String) : lookupField [] key = none := rfl

theorem lookupField_cons (k : String) (v : Json) (rest : List (String × Json))
    (key : String) :
    lookupField ((k, v) :: rest) key =
      if k = key then some v else lookupField rest key := rfl

theorem lookupField_append (l1 l2 : List (String × Json)) (key : String) :
    lookupField (l1 ++ l2) key =
      (lookupField l1 key <|> lookupField l2 key) := by
  induction l1 with
  | nil => simp [lookupField]
  | cons p rest ih =>
    obtain ⟨k, v⟩ := p
    by_cases h : k = key <;> simp [lookupField, h, ih]

theorem lookupField_optField {α : Type} (k : String) (f : α → Json)
    (o : Option α) (key : String) :
    lookupField (optField k f o) key =
      if k = key then o.map f else none := by
  cases o <;> simp [optField, lookupField]

/-! ### Concrete states used by witnesses -/

/-- A freshly started app with nothing configured: empty API key and
empty URL. -/
def appEmpty : ShortyApp := ShortyApp.defaultWith none none

/-- A state mid-request: loading is true, yet the API key and the URL
fields are populated. -/
def appLoading : ShortyApp where
  api_key := "k"
  domain := ""
  original_url := "https://example.com/x"
  custom_path := ""
  cloaking := false
  password := ""
  password_contact := false
  clicks_limit := ""
  redirect_type := 301
  result := none
  error := none
  loading := true
  show_settings := false

/-- A valid idle submission state. -/
def appValid : ShortyApp where
  api_key := "k"
  domain := ""
  original_url := "https://example.com/x"
  custom_path := ""
  cloaking := false
  password := ""
  password_contact := false
  clicks_limit := ""
  redirect_type := 301
  result := none
  error := none
  loading := false
  show_settings := false

/-- A valid idle submission whose clicks-limit text does not parse. -/
def appBadLimit : ShortyApp where
  api_key := "k"
  domain := ""
  original_url := "https://example.com/x"
  custom_path := ""
  cloaking := false
  password := ""
  password_contact := false
  clicks_limit := "abc"
  redirect_type := 301
  result := none
  error := none
  loading := false
  show_settings := false

/-- The slot written by the background thread always has loading false,
whichever branch ran. -/
theorem handle_response_loading (decode : String → Except String LinkResponse)
    (r : HttpResult) : (handle_response decode r).loading = false := by
  cases r with
  | err e => rfl
  | ok st body =>
    by_cases h : statusIsSuccess st = true
    · cases hd : decode body <;> simp [handle_response, h, hd]
    · simp [handle_response, h]

/-- C1: a submission with an empty original URL or an empty API key
returns synchronously from `create_short_link` with a validation message
in the error field; no thread is spawned and the loading flag and the
prior result are left unchanged. -/
theorem validation_short_circuits (app : ShortyApp)
    (h : app.api_key.isEmpty = true ∨ app.original_url.isEmpty = true) :
    ∃ s msg, app.create_short_link = CreateOutcome.validationError s ∧
      s.error = some msg ∧ s.loading = app.loading ∧ s.result = app.result ∧
      app.create_short_link.isSpawned = false := by
  by_cases hk : app.api_key.isEmpty = true
  · refine ⟨{ app with
        error := some "API key is required. Click settings (⚙) to configure." },
      "API key is required. Click settings (⚙) to configure.",
      ?_, rfl, rfl, rfl, ?_⟩
    · simp [ShortyApp.create_short_link, hk]
    · simp [ShortyApp.create_short_link, hk, CreateOutcome.isSpawned]
  · have hu : app.original_url.isEmpty = true := by
      rcases h with h | h
      · exact absurd h hk
      · exact h
    refine ⟨{ app with error := some "Original URL is required" },
      "Original URL is required", ?_, rfl, rfl, rfl, ?_⟩
    · simp [ShortyApp.create_short_link, hk, hu]
    · simp [ShortyApp.create_short_link, hk, hu, CreateOutcome.isSpawned]

/-- C1 witness: the freshly started unconfigured app short-circuits. -/
theorem validation_short_circuits_witness :
    ∃ s msg, appEmpty.create_short_link = CreateOutcome.validationError s ∧
      s.error = some msg ∧ s.loading = appEmpty.loading ∧
      s.result = appEmpty.result ∧
      appEmpty.create_short_link.isSpawned = false :=
  validation_short_circuits appEmpty (Or.inl rfl)

/-- C2 counterexample: in a reachable mid-request state (loading true,
API key and URL populated), the Enter-key path on the URL field starts a
second background request, refuting the claim that no UI path can. -/
theorem loading_guard_counterexample :
    appLoading.loading = true ∧
    starts_request appLoading UiTrigger.urlEnter = true :=
  ⟨rfl, rfl⟩

/-- C2 amended: while loading, the create button is disabled and cannot
start a second request, but the Enter-key paths on the URL and
custom-path fields are not guarded by the loading flag and do start a
second background request whenever the API key and URL are non-empty. -/
theorem loading_guard_amended (app : ShortyApp) (h : app.loading = true) :
    starts_request app UiTrigger.createButton = false ∧
    (app.api_key.isEmpty = false → app.original_url.isEmpty = false →
      starts_request app UiTrigger.urlEnter = true ∧
      starts_request app UiTrigger.pathEnter = true) := by
  constructor
  · simp [starts_request, ui_submit, trigger_enabled, h]
  · intro hk hu
    constructor <;>
      simp [starts_request, ui_submit, trigger_enabled,
        ShortyApp.create_short_link, hk, hu, CreateOutcome.isSpawned]

/-- C2 amended witness: in the concrete mid-request state the button is
blocked while the URL-field Enter path still fires. -/
theorem loading_guard_amended_witness :
    starts_request appLoading UiTrigger.createButton = false ∧
    starts_request appLoading UiTrigger.urlEnter = true :=
  ⟨(loading_guard_amended appLoading rfl).1,
   ((loading_guard_amended appLoading rfl).2 rfl rfl).1⟩

/-- C4: a valid submission spawns with loading set to true and the prior
result and error cleared in the returned state, and every completed
outcome is recorded with loading false, both in the written slot and
after the UI drains it. -/
theorem loading_lifecycle (app : ShortyApp)
    (hk : app.api_key.isEmpty = false) (hu : app.original_url.isEmpty = false) :
    app.create_short_link =
      CreateOutcome.spawned
        { app with loading := true, error := none, result := none }
        app.api_key app.buildRequest
    ∧ (∀ decode r, (handle_response decode r).loading = false)
    ∧ (∀ decode r (a : ShortyApp),
        (a.drain (handle_response decode r)).loading = false) := by
  refine ⟨by simp [ShortyApp.create_short_link, hk, hu],
    fun decode r => handle_response_loading decode r,
    fun decode r a => ?_⟩
  simp [ShortyApp.drain, handle_response_loading]

/-- C4 witness: the concrete valid app spawns with the flags set, and a
concrete completed outcome carries loading false. -/
theorem loading_lifecycle_witness :
    appValid.create_short_link =
      CreateOutcome.spawned
        { appValid with loading := true, error := none, result := none }
        appValid.api_key appValid.buildRequest
    ∧ (handle_response (fun _ => Except.error "boom")
        (HttpResult.err "no route")).loading = false :=
  ⟨(loading_lifecycle appValid rfl rfl).1,
   (loading_lifecycle appValid rfl rfl).2.1 (fun _ => Except.error "boom")
     (HttpResult.err "no route")⟩

/-- C6: serializing a Config and deserializing it back reproduces the
same api_key and domain pair. -/
theorem config_round_trip (c : Config) :
    Config.fromJson (Config.toJson c) = some c := rfl

/-- C3: a completed background request is classified into exactly one of
the four mutually exclusive outcomes — transport failure, non-2xx API
error, 2xx with unparseable body, or 2xx success — and the slot the code
writes is exactly the slot of that classification. -/
theorem outcome_classification (decode : String → Except String LinkResponse)
    (r : HttpResult) :
    handle_response decode r = outcomeSlot (classify decode r)
    ∧ (∀ e, classify decode r = Outcome.transportError e ↔ r = HttpResult.err e)
    ∧ (∀ st body, classify decode r = Outcome.apiError st body ↔
        (r = HttpResult.ok st body ∧ statusIsSuccess st = false))
    ∧ (∀ m, classify decode r = Outcome.decodeError m ↔
        ∃ st body, r = HttpResult.ok st body ∧ statusIsSuccess st = true ∧
          decode body = Except.error m)
    ∧ (∀ link, classify decode r = Outcome.success link ↔
        ∃ st body, r = HttpResult.ok st body ∧ statusIsSuccess st = true ∧
          decode body = Except.ok link) := by
  cases r with
  | err e =>
    refine ⟨rfl, ?_, ?_, ?_, ?_⟩ <;> intros <;> simp [classify]
  | ok st body =>
    cases h : statusIsSuccess st with
    | true =>
      cases hd : decode body with
      | ok link =>
        refine ⟨by simp [handle_response, classify, outcomeSlot, h, hd],
          ?_, ?_, ?_, ?_⟩
        · intro e; simp [classify, h, hd]
        · intro st' body'
          simp [classify, h, hd]
          rintro rfl rfl
          exact h
        · intro m
          simp [classify, h, hd]
        · intro link'
          simp [classify, h, hd]
          constructor
          · rintro rfl
            exact ⟨st, body, ⟨rfl, rfl⟩, h, hd⟩
          · rintro ⟨st2, body2, ⟨rfl, rfl⟩, _, hd2⟩
            exact Except.ok.inj (hd.symm.trans hd2)
      | error msg =>
        refine ⟨by simp [handle_response, classify, outcomeSlot, h, hd],
          ?_, ?_, ?_, ?_⟩
        · intro e; simp [classify, h, hd]
        · intro st' body'
          simp [classify, h, hd]
          rintro rfl rfl
          exact h
        · intro m
          simp [classify, h, hd]
          constructor
          · rintro rfl
            exact ⟨st, body, ⟨rfl, rfl⟩, h, hd⟩
          · rintro ⟨st2, body2, ⟨rfl, rfl⟩, _, hd2⟩
            exact Except.error.inj (hd.symm.trans hd2)
        · intro link'
          simp [classify, h, hd]
    | false =>
      refine ⟨by simp [handle_response, classify, outcomeSlot, h], ?_, ?_, ?_, ?_⟩
      · intro e; simp [classify, h]
      · intro st' body'
        simp [classify, h]
        rintro rfl rfl
        exact h
      · intro m
        simp [classify, h]
      · intro link'
        simp [classify, h]

/-- C5: for a non-2xx response, the recorded error message carries both
the numeric status code and the raw response body text as substrings. -/
theorem api_error_message_contents
    (decode : String → Except String LinkResponse)
    (st : StatusCode) (body : String) (h : statusIsSuccess st = false) :
    ∃ msg, (handle_response decode (HttpResult.ok st body)).error = some msg ∧
      containsStr msg (toString st.code) ∧ containsStr msg body := by
  refine ⟨"API error " ++ statusDisplay st ++ ": " ++ body, ?_, ?_, ?_⟩
  · simp [handle_response, h]
  · exact ⟨"API error ", " " ++ st.reason ++ ": " ++ body,
      by simp [statusDisplay, String.append_assoc]⟩
  · exact ⟨"API error " ++ statusDisplay st ++ ": ", "",
      by simp [String.append_assoc]⟩

/-- C5 witness: a concrete 404 with body text, whose message contains
the code digits and the body. -/
theorem api_error_message_contents_witness :
    ∃ msg,
      (handle_response (fun _ => Except.error "x")
        (HttpResult.ok { code := 404, reason := "Not Found" }
          "no such domain")).error = some msg ∧
      containsStr msg (toString (404 : Nat)) ∧
      containsStr msg "no such domain" :=
  api_error_message_contents (fun _ => Except.error "x")
    { code := 404, reason := "Not Found" } "no such domain" rfl

/-- C7: the dispatched body always pins allowDuplicates to false and
tags to ["shortyio"], always carries originalURL, omits the optional
fields whose source inputs are empty or unset, and sends the selected
redirectType, which the radio buttons keep in {301, 302, 307, 308} and
which starts at 301. -/
theorem request_body_fields (app : ShortyApp)
    (hk : app.api_key.isEmpty = false) (hu : app.original_url.isEmpty = false) :
    app.create_short_link =
      CreateOutcome.spawned
        { app with loading := true, error := none, result := none }
        app.api_key app.buildRequest
    ∧ lookupJson app.buildRequest.toJson "allowDuplicates" =
        some (Json.bool false)
    ∧ lookupJson app.buildRequest.toJson "tags" =
        some (Json.arr [Json.str "shortyio"])
    ∧ lookupJson app.buildRequest.toJson "originalURL" =
        some (Json.str app.original_url)
    ∧ (app.custom_path.isEmpty = true →
        lookupJson app.buildRequest.toJson "path" = none)
    ∧ (app.domain.isEmpty = true →
        lookupJson app.buildRequest.toJson "domain" = none)
    ∧ (app.password.isEmpty = true →
        lookupJson app.buildRequest.toJson "password" = none)
    ∧ (app.cloaking = false →
        lookupJson app.buildRequest.toJson "cloaking" = none)
    ∧ (app.password_contact = false →
        lookupJson app.buildRequest.toJson "passwordContact" = none)
    ∧ (app.clicks_limit.isEmpty = true →
        lookupJson app.buildRequest.toJson "clicksLimit" = none)
    ∧ lookupJson app.buildRequest.toJson "redirectType" =
        some (Json.int app.redirect_type)
    ∧ (∀ config clip, (ShortyApp.defaultWith config clip).redirect_type = 301)
    ∧ (∀ a v, v ∈ redirectChoices →
        (applyRadio a v).redirect_type ∈ redirectChoices) := by
  refine ⟨by simp [ShortyApp.create_short_link, hk, hu],
    ?_, ?_, ?_, ?_, ?_, ?_, ?_, ?_, ?_, ?_, fun config clip => rfl,
    fun a v hv => by simpa [applyRadio] using hv⟩ <;>
  · intros
    simp_all [CreateLinkRequest.toJson, lookupJson, lookupField_append,
      lookupField_optField, lookupField_cons, ShortyApp.buildRequest]

/-- C7 witness: the concrete valid app pins the fixed fields and omits
the empty custom path. -/
theorem request_body_fields_witness :
    lookupJson appValid.buildRequest.toJson "allowDuplicates" =
      some (Json.bool false)
    ∧ lookupJson appValid.buildRequest.toJson "tags" =
      some (Json.arr [Json.str "shortyio"])
    ∧ lookupJson appValid.buildRequest.toJson "path" = none :=
  ⟨(request_body_fields appValid rfl rfl).2.1,
   (request_body_fields appValid rfl rfl).2.2.1,
   (request_body_fields appValid rfl rfl).2.2.2.2.1 rfl⟩

/-- C8: at startup the URL field is the clipboard text exactly when that
text begins with http:// or https://, and empty otherwise (including
when no clipboard text is available). -/
theorem clipboard_prefill_init (config : Option Config) (clip : Option String) :
    (∀ t, clip = some t →
      (starts_with t "http://" || starts_with t "https://") = true →
      (ShortyApp.defaultWith config clip).original_url = t)
    ∧ (∀ t, clip = some t →
      (starts_with t "http://" || starts_with t "https://") = false →
      (ShortyApp.defaultWith config clip).original_url = "")
    ∧ (clip = none → (ShortyApp.defaultWith config clip).original_url = "") := by
  refine ⟨?_, ?_, ?_⟩
  · rintro t rfl h
    simp [ShortyApp.defaultWith, clipboardPrefill, Option.filter, h]
  · rintro t rfl h
    simp [ShortyApp.defaultWith, clipboardPrefill, Option.filter, h]
  · rintro rfl
    rfl

/-- C8 witness: the two concrete clipboard contents from the spec. -/
theorem clipboard_prefill_init_witness :
    (ShortyApp.defaultWith none (some "https://example.com/x")).original_url =
      "https://example.com/x"
    ∧ (ShortyApp.defaultWith none (some "not a url")).original_url = "" :=
  ⟨(clipboard_prefill_init none (some "https://example.com/x")).1
      "https://example.com/x" rfl (by decide),
   (clipboard_prefill_init none (some "not a url")).2.1
      "not a url" rfl (by decide)⟩

/-- `resp.json::<LinkResponse>()`: the body text is parsed as JSON and
then deserialized into `LinkResponse`; `jparse` stands for the textual
JSON parser. -/
def decodeLink (jparse : String → Except String Json) :
    String → Except String LinkResponse :=
  fun body => (jparse body).bind LinkResponse.fromJson

/-- C9: a 2xx response whose body parses delivers a LinkResult whose
short_url and original_url are exactly the parsed shortURL and
originalURL fields. -/
theorem success_delivers_parsed (jparse : String → Except String Json)
    (st : StatusCode) (body : String) (j : Json) (s o : String)
    (hst : statusIsSuccess st = true)
    (hj : jparse body = Except.ok j)
    (hs : lookupJson j "shortURL" = some (Json.str s))
    (ho : lookupJson j "originalURL" = some (Json.str o)) :
    handle_response (decodeLink jparse) (HttpResult.ok st body) =
      { result := some { short_url := s, original_url := o },
        error := none, loading := false } := by
  cases j
  case obj fields =>
    have hs' : lookupField fields "shortURL" = some (Json.str s) := hs
    have ho' : lookupField fields "originalURL" = some (Json.str o) := ho
    simp [handle_response, hst, decodeLink, hj, Except.bind,
      LinkResponse.fromJson, hs', ho']
  all_goals simp [lookupJson] at hs

/-- A concrete successful response body, already JSON-parsed. -/
def sampleResponseJson : Json :=
  Json.obj [("shortURL", Json.str "https://sho.rt/a"),
            ("originalURL", Json.str "https://example.com/long")]

/-- C9 witness: a concrete 200 response delivers exactly the parsed
pair. -/
theorem success_delivers_parsed_witness :
    handle_response (decodeLink (fun _ => Except.ok sampleResponseJson))
        (HttpResult.ok { code := 200, reason := "OK" } "body") =
      { result := some
          { short_url := "https://sho.rt/a"
            original_url := "https://example.com/long" }
        error := none
        loading := false } :=
  success_delivers_parsed (fun _ => Except.ok sampleResponseJson)
    { code := 200, reason := "OK" } "body" sampleResponseJson
    "https://sho.rt/a" "https://example.com/long" rfl rfl rfl rfl

/-- C10: a non-empty clicks-limit text that does not parse as an i32
does not fail validation: the submission is dispatched and the
clicksLimit field is silently omitted from the body. -/
theorem clicks_limit_silently_omitted (app : ShortyApp)
    (hk : app.api_key.isEmpty = false) (hu : app.original_url.isEmpty = false)
    (hne : app.clicks_limit.isEmpty = false)
    (hp : parseI32 app.clicks_limit = none) :
    app.create_short_link =
      CreateOutcome.spawned
        { app with loading := true, error := none, result := none }
        app.api_key app.buildRequest
    ∧ app.buildRequest.clicks_limit = none
    ∧ lookupJson app.buildRequest.toJson "clicksLimit" = none := by
  refine ⟨by simp [ShortyApp.create_short_link, hk, hu], ?_, ?_⟩
  · simp [ShortyApp.buildRequest, hne, hp]
  · simp [CreateLinkRequest.toJson, lookupJson, lookupField_append,
      lookupField_optField, lookupField_cons, ShortyApp.buildRequest, hne, hp]

/-- C10 witness: the concrete app with clicks limit "abc" omits the
field. -/
theorem clicks_limit_silently_omitted_witness :
    appBadLimit.buildRequest.clicks_limit = none ∧
    lookupJson appBadLimit.buildRequest.toJson "clicksLimit" = none :=
  ⟨(clicks_limit_silently_omitted appBadLimit rfl rfl rfl (by decide)).2.1,
   (clicks_limit_silently_omitted appBadLimit rfl rfl rfl (by decide)).2.2⟩

end Shortyio
